import Mathlib

/-!
Verification of the technical-indicator and sector-relative scoring engine of
the Professional-Trading-Terminal repository.

The Python sources are shallowly embedded here:
* `stock_analyzer.py` — the Sector Scorer (`StockAnalyzer`): category point
  gathering, category scores, the weighted overall score and the
  recommendation thresholds.
* `enhanced_finance_data.py` — OBV, pivot points, RSI, pandas-style EWMs.
* `openbb_app.py` — the second indicator implementation
  (`calculate_technical_indicators`, `add_technical_indicators`).

Numbers are modelled as exact rationals; pandas NaN/inf float semantics, where
a claim depends on them, are modelled by an explicit extended-rational type
with the IEEE special-value rules for the operations the source performs.
Python truthiness (`if x:` skips both `None` and `0`) is modelled by matching
on the `Option` and testing for zero explicitly.
-/

namespace TradingTerminal

/-! ## Sector benchmarks (stock_analyzer.py, SECTOR_BENCHMARKS / DEFAULT_BENCHMARK) -/

structure Benchmark where
  pe_avg : ℚ
  pe_good : ℚ
  pe_bad : ℚ
  pb_avg : ℚ
  roe_avg : ℚ
  margin_avg : ℚ
  growth_avg : ℚ
  debt_equity_ok : ℚ
deriving Repr, DecidableEq

/-- Embedding of the SECTOR_BENCHMARKS dictionary of stock_analyzer.py. -/
def SECTOR_BENCHMARKS (s : String) : Option Benchmark :=
  if s = "Technology" then some ⟨35, 25, 60, 8, 20, 25, 15, 3/2⟩
  else if s = "Software" then some ⟨45, 30, 80, 15, 25, 30, 25, 1⟩
  else if s = "Finance" then some ⟨12, 10, 18, 6/5, 12, 35, 8, 3⟩
  else if s = "Consumer Cyclical" then some ⟨20, 15, 30, 4, 18, 10, 10, 6/5⟩
  else if s = "Healthcare" then some ⟨22, 18, 35, 5, 15, 18, 12, 4/5⟩
  else if s = "Energy" then some ⟨15, 10, 25, 3/2, 10, 8, 5, 1⟩
  else if s = "Industrials" then some ⟨18, 15, 25, 3, 14, 12, 8, 1⟩
  else if s = "Consumer Defensive" then some ⟨22, 18, 30, 4, 16, 8, 5, 4/5⟩
  else if s = "Communication Services" then some ⟨25, 18, 40, 3, 15, 20, 12, 6/5⟩
  else if s = "Utilities" then some ⟨18, 15, 25, 9/5, 10, 12, 3, 3/2⟩
  else if s = "Real Estate" then some ⟨30, 20, 50, 2, 8, 15, 5, 2⟩
  else if s = "Basic Materials" then some ⟨16, 12, 25, 2, 12, 10, 6, 4/5⟩
  else none

def DEFAULT_BENCHMARK : Benchmark := ⟨25, 18, 40, 4, 15, 15, 10, 1⟩

/-! ## Fundamentals snapshot

One optional field per metric the analyzer reads from the Yahoo-style
dictionary; a missing dictionary key is `none`. -/

structure Fundamentals where
  sector : Option String := none
  industry : Option String := none
  trailingPE : Option ℚ := none
  priceToBook : Option ℚ := none
  pegRatio : Option ℚ := none
  forwardPE : Option ℚ := none
  returnOnEquity : Option ℚ := none
  returnOnAssets : Option ℚ := none
  debtToEquity : Option ℚ := none
  profitMargins : Option ℚ := none
  freeCashflow : Option ℚ := none
  revenueGrowth : Option ℚ := none
  earningsGrowth : Option ℚ := none
  grossMargins : Option ℚ := none
  performance_1w : Option ℚ := none
  performance_1m : Option ℚ := none
  performance_3m : Option ℚ := none
  fiftyDayAverage : Option ℚ := none
  twoHundredDayAverage : Option ℚ := none
  currentPrice : Option ℚ := none
  recommendationKey : Option String := none
  targetMeanPrice : Option ℚ := none
  heldPercentInstitutions : Option ℚ := none
  shortPercentOfFloat : Option ℚ := none
deriving Repr, DecidableEq

/-- StockAnalyzer.__init__: sector defaults to "Unknown". -/
def sectorOf (f : Fundamentals) : String := f.sector.getD "Unknown"

/-- StockAnalyzer.__init__: SECTOR_BENCHMARKS.get(sector, DEFAULT_BENCHMARK). -/
def benchmarksOf (f : Fundamentals) : Benchmark :=
  (SECTOR_BENCHMARKS (sectorOf f)).getD DEFAULT_BENCHMARK

/-- Category score from gathered points:
sum(points)/len(points) if points else 50. -/
def scoreOf (points : List ℚ) : ℚ :=
  if points = [] then 50 else points.sum / points.length

/-! ### Valuation points (stock_analyzer.py `_analyze_valuation`) -/

/-- Point from trailing P/E; `if pe:` skips both a missing and a zero value. -/
def pePoints (b : Benchmark) (f : Fundamentals) : List ℚ :=
  match f.trailingPE with
  | none => []
  | some pe =>
    if pe = 0 then []
    else if pe < b.pe_good then [80]
    else if pe < b.pe_avg then [60]
    else if pe < b.pe_bad then [40]
    else [20]

/-- Point from price-to-book. -/
def pbPoints (b : Benchmark) (f : Fundamentals) : List ℚ :=
  match f.priceToBook with
  | none => []
  | some pb =>
    if pb = 0 then []
    else if pb < b.pb_avg * (7/10) then [80]
    else if pb < b.pb_avg then [60]
    else if pb < b.pb_avg * (3/2) then [40]
    else [20]

/-- Point from the PEG ratio. -/
def pegPoints (f : Fundamentals) : List ℚ :=
  match f.pegRatio with
  | none => []
  | some peg =>
    if peg = 0 then []
    else if peg < 1 then [90]
    else if peg < 3/2 then [70]
    else if peg < 2 then [50]
    else [30]

/-- Point from forward P/E vs trailing P/E; `if forward_pe and pe:` requires
both to be present and nonzero. -/
def forwardPePoints (f : Fundamentals) : List ℚ :=
  match f.forwardPE, f.trailingPE with
  | some fpe, some pe =>
    if fpe = 0 ∨ pe = 0 then []
    else if fpe < pe * (9/10) then [70]
    else if fpe < pe then [60]
    else [40]
  | _, _ => []

def valuationPoints (b : Benchmark) (f : Fundamentals) : List ℚ :=
  pePoints b f ++ pbPoints b f ++ pegPoints f ++ forwardPePoints f

def valuationScore (f : Fundamentals) : ℚ :=
  scoreOf (valuationPoints (benchmarksOf f) f)

/-! ### Financial-health points (stock_analyzer.py `_analyze_financial_health`) -/

/-- Point from ROE vs sector average (percentage comparison). -/
def roePoints (b : Benchmark) (f : Fundamentals) : List ℚ :=
  match f.returnOnEquity with
  | none => []
  | some roe =>
    if roe = 0 then []
    else if roe * 100 > b.roe_avg * (13/10) then [90]
    else if roe * 100 > b.roe_avg then [70]
    else if roe * 100 > b.roe_avg * (7/10) then [50]
    else [30]

/-- Point from ROA (absolute thresholds). -/
def roaPoints (f : Fundamentals) : List ℚ :=
  match f.returnOnAssets with
  | none => []
  | some roa =>
    if roa = 0 then []
    else if roa > 3/20 then [85]
    else if roa > 1/10 then [70]
    else if roa > 1/20 then [50]
    else [30]

/-- Point from debt/equity; the source tests `is not None`, so a present zero
IS scored (and lands in the best bucket). -/
def dePoints (b : Benchmark) (f : Fundamentals) : List ℚ :=
  match f.debtToEquity with
  | none => []
  | some de =>
    if de < b.debt_equity_ok * (1/2) then [90]
    else if de < b.debt_equity_ok then [70]
    else if de < b.debt_equity_ok * (3/2) then [40]
    else [20]

/-- Point from profit margins vs sector average. -/
def marginPoints (b : Benchmark) (f : Fundamentals) : List ℚ :=
  match f.profitMargins with
  | none => []
  | some m =>
    if m = 0 then []
    else if m * 100 > b.margin_avg * (13/10) then [90]
    else if m * 100 > b.margin_avg then [70]
    else if m * 100 > b.margin_avg * (7/10) then [50]
    else [30]

/-- Point from free cash flow; `if fcf:` skips a zero value. -/
def fcfPoints (f : Fundamentals) : List ℚ :=
  match f.freeCashflow with
  | none => []
  | some fcf =>
    if fcf = 0 then []
    else if fcf > 0 then [70]
    else [20]

def healthPoints (b : Benchmark) (f : Fundamentals) : List ℚ :=
  roePoints b f ++ roaPoints f ++ dePoints b f ++ marginPoints b f ++ fcfPoints f

def healthScore (f : Fundamentals) : ℚ :=
  scoreOf (healthPoints (benchmarksOf f) f)

/-! ### Growth points (stock_analyzer.py `_analyze_growth`) -/

def revGrowthPoints (b : Benchmark) (f : Fundamentals) : List ℚ :=
  match f.revenueGrowth with
  | none => []
  | some rg =>
    if rg = 0 then []
    else if rg * 100 > b.growth_avg * 2 then [95]
    else if rg * 100 > b.growth_avg * (13/10) then [80]
    else if rg * 100 > b.growth_avg then [65]
    else if rg * 100 > 0 then [45]
    else [20]

def earningsGrowthPoints (f : Fundamentals) : List ℚ :=
  match f.earningsGrowth with
  | none => []
  | some eg =>
    if eg = 0 then []
    else if eg * 100 > 25 then [90]
    else if eg * 100 > 15 then [75]
    else if eg * 100 > 5 then [55]
    else if eg * 100 > 0 then [40]
    else [25]

def grossMarginPoints (f : Fundamentals) : List ℚ :=
  match f.grossMargins with
  | none => []
  | some gm =>
    if gm = 0 then []
    else if gm * 100 > 50 then [85]
    else if gm * 100 > 30 then [70]
    else if gm * 100 > 20 then [50]
    else [30]

def growthPoints (b : Benchmark) (f : Fundamentals) : List ℚ :=
  revGrowthPoints b f ++ earningsGrowthPoints f ++ grossMarginPoints f

def growthScore (f : Fundamentals) : ℚ :=
  scoreOf (growthPoints (benchmarksOf f) f)

/-! ### Momentum points (stock_analyzer.py `_analyze_momentum`) -/

/-- Weighted performance point; the source appends `point * weight` with
weights 1.2 / 1.0 / 0.8 for the 1-week / 1-month / 3-month figures. -/
def perfPoint (perf w : ℚ) : ℚ :=
  if perf > 10 then 90 * w
  else if perf > 5 then 75 * w
  else if perf > 0 then 60 * w
  else if perf > -5 then 40 * w
  else 20 * w

/-- The performance loop guards with `is not None`, so present zeros are
scored. -/
def perfPoints (f : Fundamentals) : List ℚ :=
  (match f.performance_1w with | none => [] | some p => [perfPoint p (6/5)]) ++
  (match f.performance_1m with | none => [] | some p => [perfPoint p 1]) ++
  (match f.performance_3m with | none => [] | some p => [perfPoint p (4/5)])

/-- Moving-average point; `all([ma_50, ma_200, current_price])` requires all
three to be present and nonzero (Python truthiness inside `all`). -/
def maPoints (f : Fundamentals) : List ℚ :=
  match f.fiftyDayAverage, f.twoHundredDayAverage, f.currentPrice with
  | some ma50, some ma200, some cp =>
    if ma50 = 0 ∨ ma200 = 0 ∨ cp = 0 then []
    else if cp > ma50 ∧ ma50 > ma200 then [85]
    else if cp > ma50 then [70]
    else if cp > ma200 then [55]
    else [30]
  | _, _, _ => []

def momentumPoints (f : Fundamentals) : List ℚ :=
  perfPoints f ++ maPoints f

def momentumScore (f : Fundamentals) : ℚ :=
  scoreOf (momentumPoints f)

/-! ### Sentiment points (stock_analyzer.py `_analyze_sentiment`) -/

/-- rec_map.get(key, 50). -/
def recMap (s : String) : ℚ :=
  if s = "strong_buy" then 95
  else if s = "buy" then 75
  else if s = "hold" then 50
  else if s = "sell" then 25
  else if s = "strong_sell" then 5
  else 50

/-- Analyst recommendation point; defaults the key to the empty string and
skips it when empty. -/
def recPoints (f : Fundamentals) : List ℚ :=
  let k := f.recommendationKey.getD ""
  if k = "" then [] else [recMap k.toLower]

/-- Target-price upside point; `if target_mean and current:`. -/
def targetPoints (f : Fundamentals) : List ℚ :=
  match f.targetMeanPrice, f.currentPrice with
  | some t, some c =>
    if t = 0 ∨ c = 0 then []
    else
      if (t - c) / c * 100 > 30 then [95]
      else if (t - c) / c * 100 > 15 then [80]
      else if (t - c) / c * 100 > 5 then [65]
      else if (t - c) / c * 100 > -5 then [45]
      else [25]
  | _, _ => []

def instPoints (f : Fundamentals) : List ℚ :=
  match f.heldPercentInstitutions with
  | none => []
  | some p =>
    if p = 0 then []
    else if p > 7/10 then [70]
    else if p > 1/2 then [60]
    else [45]

def shortPoints (f : Fundamentals) : List ℚ :=
  match f.shortPercentOfFloat with
  | none => []
  | some p =>
    if p = 0 then []
    else if p < 1/20 then [75]
    else if p < 1/10 then [60]
    else if p > 1/5 then [30]
    else [50]

def sentimentPoints (f : Fundamentals) : List ℚ :=
  recPoints f ++ targetPoints f ++ instPoints f ++ shortPoints f

def sentimentScore (f : Fundamentals) : ℚ :=
  scoreOf (sentimentPoints f)

/-! ### Overall score and recommendation (stock_analyzer.py `analyze`,
`_get_recommendation`) -/

/-- Weighted composite: valuation 0.25, health 0.20, growth 0.25,
momentum 0.15, sentiment 0.15. -/
def overallScore (f : Fundamentals) : ℚ :=
  valuationScore f * (1/4) + healthScore f * (1/5) + growthScore f * (1/4) +
    momentumScore f * (3/20) + sentimentScore f * (3/20)

inductive Recommendation where
  | strongBuy
  | buy
  | hold
  | sell
  | strongSell
deriving Repr, DecidableEq

/-- Threshold mapping of `_get_recommendation`. -/
def getRecommendation (score : ℚ) : Recommendation :=
  if score ≥ 75 then .strongBuy
  else if score ≥ 60 then .buy
  else if score ≥ 40 then .hold
  else if score ≥ 25 then .sell
  else .strongSell

/-! ## On-Balance Volume

Two implementations exist in the repository. -/

/-- Embedding of enhanced_finance_data.py `_calculate_obv`: the first bar is
seeded with its own volume, then signed increments follow. Out-of-range reads
default to 0, matching nothing in the source (indices are only meaningful
below the series length). -/
def obvEnhanced (close volume : List ℚ) : Nat → ℚ
  | 0 => volume.getD 0 0
  | i + 1 =>
    if close.getD (i + 1) 0 > close.getD i 0 then
      obvEnhanced close volume i + volume.getD (i + 1) 0
    else if close.getD (i + 1) 0 < close.getD i 0 then
      obvEnhanced close volume i - volume.getD (i + 1) 0
    else
      obvEnhanced close volume i

/-- Python sign-from-diff lambda of openbb_app.py line 1089:
1 if x > 0 else (-1 if x < 0 else 0). -/
def pySign (x : ℚ) : ℚ := if x > 0 then 1 else if x < 0 then -1 else 0

/-- Per-row term of the openbb_app.py OBV expression: volume times the
not-NaN indicator of the close diff times the sign of the diff after
fillna(0). Row 0 has a NaN diff, so its indicator is 0. -/
def obvOpenbbTerm (close volume : List ℚ) (k : Nat) : ℚ :=
  volume.getD k 0 * (if k = 0 then 0 else 1) *
    pySign (if k = 0 then 0 else close.getD k 0 - close.getD (k - 1) 0)

/-- Embedding of openbb_app.py `calculate_technical_indicators` OBV: the
cumulative sum of the per-row terms. -/
def obvOpenbb (close volume : List ℚ) (i : Nat) : ℚ :=
  ((List.range (i + 1)).map (obvOpenbbTerm close volume)).sum

/-! ## Pivot points

Again two implementations. The enhanced_finance_data.py one shifts the
series by one bar first (row 0 is NaN, modelled by `Option`); the
openbb_app.py one uses the current row. -/

/-- Previous-bar pivot of enhanced_finance_data.py `_calculate_pivot_points`;
`none` at bar 0 models the NaN produced by shift(1). -/
def pivotEnh (high low close : List ℚ) : Nat → Option ℚ
  | 0 => none
  | i + 1 => some ((high.getD i 0 + low.getD i 0 + close.getD i 0) / 3)

def r1Enh (high low close : List ℚ) : Nat → Option ℚ
  | 0 => none
  | i + 1 =>
    some (2 * ((high.getD i 0 + low.getD i 0 + close.getD i 0) / 3) - low.getD i 0)

def r2Enh (high low close : List ℚ) : Nat → Option ℚ
  | 0 => none
  | i + 1 =>
    some ((high.getD i 0 + low.getD i 0 + close.getD i 0) / 3 +
      (high.getD i 0 - low.getD i 0))

def r3Enh (high low close : List ℚ) : Nat → Option ℚ
  | 0 => none
  | i + 1 =>
    some (high.getD i 0 +
      2 * ((high.getD i 0 + low.getD i 0 + close.getD i 0) / 3 - low.getD i 0))

def s1Enh (high low close : List ℚ) : Nat → Option ℚ
  | 0 => none
  | i + 1 =>
    some (2 * ((high.getD i 0 + low.getD i 0 + close.getD i 0) / 3) - high.getD i 0)

def s2Enh (high low close : List ℚ) : Nat → Option ℚ
  | 0 => none
  | i + 1 =>
    some ((high.getD i 0 + low.getD i 0 + close.getD i 0) / 3 -
      (high.getD i 0 - low.getD i 0))

def s3Enh (high low close : List ℚ) : Nat → Option ℚ
  | 0 => none
  | i + 1 =>
    some (low.getD i 0 -
      2 * (high.getD i 0 - (high.getD i 0 + low.getD i 0 + close.getD i 0) / 3))

/-- Current-bar pivot of openbb_app.py `calculate_technical_indicators`
(lines 1107-1111): no shift is applied. -/
def pivotOb (high low close : List ℚ) (i : Nat) : ℚ :=
  (high.getD i 0 + low.getD i 0 + close.getD i 0) / 3

def r1Ob (high low close : List ℚ) (i : Nat) : ℚ :=
  2 * pivotOb high low close i - low.getD i 0

def s1Ob (high low close : List ℚ) (i : Nat) : ℚ :=
  2 * pivotOb high low close i - high.getD i 0

def r2Ob (high low close : List ℚ) (i : Nat) : ℚ :=
  pivotOb high low close i + (high.getD i 0 - low.getD i 0)

def s2Ob (high low close : List ℚ) (i : Nat) : ℚ :=
  pivotOb high low close i - (high.getD i 0 - low.getD i 0)

/-- Pivot level formulas as the spec words them, from the previous bar's
high/low/close passed explicitly (spec section 4.1, pivot-points row). Used
to compare the two source implementations against the spec. -/
def pivotSpec (pH pL pC : ℚ) : ℚ := (pH + pL + pC) / 3

def r1Spec (pH pL pC : ℚ) : ℚ := 2 * pivotSpec pH pL pC - pL

def r2Spec (pH pL pC : ℚ) : ℚ := pivotSpec pH pL pC + (pH - pL)

def r3Spec (pH pL pC : ℚ) : ℚ := pH + 2 * (pivotSpec pH pL pC - pL)

def s1Spec (pH pL pC : ℚ) : ℚ := 2 * pivotSpec pH pL pC - pH

def s2Spec (pH pL pC : ℚ) : ℚ := pivotSpec pH pL pC - (pH - pL)

def s3Spec (pH pL pC : ℚ) : ℚ := pL - 2 * (pH - pivotSpec pH pL pC)

/-! ## Exponential moving averages

The sources call pandas ewm(span=n).mean(). With the default adjust=True
(enhanced_finance_data.py `_add_technical_indicators`, openbb_app.py
`add_technical_indicators`) pandas computes the exponentially-weighted mean
with weight (1-alpha)^(i-k) on x_k; with adjust=False (openbb_app.py
`calculate_technical_indicators`) it computes the recursion seeded with the
first value. Both semantics are embedded below, numerator and denominator
by the incremental update pandas performs. -/

/-- Numerator of the adjust=True EWM, updated incrementally. -/
def ewmNum (a : ℚ) (xs : List ℚ) : Nat → ℚ
  | 0 => xs.getD 0 0
  | i + 1 => (1 - a) * ewmNum a xs i + xs.getD (i + 1) 0

/-- Denominator of the adjust=True EWM, updated incrementally. -/
def ewmDen (a : ℚ) : Nat → ℚ
  | 0 => 1
  | i + 1 => (1 - a) * ewmDen a i + 1

/-- pandas ewm(...).mean() with adjust=True (the default). -/
def ewmAdj (a : ℚ) (xs : List ℚ) (i : Nat) : ℚ := ewmNum a xs i / ewmDen a i

/-- pandas ewm(...).mean() with adjust=False: the plain recursion seeded with
the first value. -/
def ewmRec (a : ℚ) (xs : List ℚ) : Nat → ℚ
  | 0 => xs.getD 0 0
  | i + 1 => (1 - a) * ewmRec a xs i + a * xs.getD (i + 1) 0

/-- EMA column of enhanced_finance_data.py (ewm(span=n).mean(), default
adjust). -/
def emaEnhanced (n : ℕ) (close : List ℚ) (i : Nat) : ℚ :=
  ewmAdj (2 / ((n : ℚ) + 1)) close i

/-- EMA column of openbb_app.py `add_technical_indicators`
(ewm(span=n).mean(), default adjust). -/
def emaAddTech (n : ℕ) (close : List ℚ) (i : Nat) : ℚ :=
  ewmAdj (2 / ((n : ℚ) + 1)) close i

/-- EMA column of openbb_app.py `calculate_technical_indicators`
(ewm(span=n, adjust=False).mean()). -/
def emaCalcTech (n : ℕ) (close : List ℚ) (i : Nat) : ℚ :=
  ewmRec (2 / ((n : ℚ) + 1)) close i

/-! ## RSI with IEEE special values

RSI = 100 - 100/(1 + gain/loss) is computed in floats; when the mean loss is
zero and the mean gain positive, gain/loss is +infinity and the formula
evaluates to 100. The extended-rational type below carries the IEEE rules for
exactly the operations the formula performs. -/

inductive ERat where
  | fin (q : ℚ)
  | inf
  | negInf
  | nan
deriving Repr, DecidableEq

namespace ERat

/-- IEEE addition on the extended rationals. -/
def add : ERat → ERat → ERat
  | fin a, fin b => fin (a + b)
  | fin _, inf => inf
  | inf, fin _ => inf
  | inf, inf => inf
  | fin _, negInf => negInf
  | negInf, fin _ => negInf
  | negInf, negInf => negInf
  | inf, negInf => nan
  | negInf, inf => nan
  | nan, _ => nan
  | _, nan => nan

/-- IEEE subtraction on the extended rationals. -/
def sub : ERat → ERat → ERat
  | fin a, fin b => fin (a - b)
  | fin _, inf => negInf
  | inf, fin _ => inf
  | fin _, negInf => inf
  | negInf, fin _ => negInf
  | inf, negInf => inf
  | negInf, inf => negInf
  | inf, inf => nan
  | negInf, negInf => nan
  | nan, _ => nan
  | _, nan => nan

/-- IEEE division on the extended rationals (numpy semantics: x/0 is signed
infinity for x nonzero and NaN for x = 0). -/
def div : ERat → ERat → ERat
  | fin a, fin b =>
    if b ≠ 0 then fin (a / b)
    else if a > 0 then inf
    else if a < 0 then negInf
    else nan
  | fin _, inf => fin 0
  | fin _, negInf => fin 0
  | inf, fin b => if b ≥ 0 then inf else negInf
  | negInf, fin b => if b ≥ 0 then negInf else inf
  | inf, inf => nan
  | inf, negInf => nan
  | negInf, inf => nan
  | negInf, negInf => nan
  | nan, _ => nan
  | _, nan => nan

end ERat

/-- The RSI formula 100 - 100/(1 + gain/loss) over the extended rationals,
shared verbatim by enhanced_finance_data.py `_calculate_rsi` and
openbb_app.py (both indicator functions). -/
def rsiFormula (gain loss : ℚ) : ERat :=
  ERat.sub (.fin 100) (ERat.div (.fin 100) (ERat.add (.fin 1) (ERat.div (.fin gain) (.fin loss))))

/-- Close-to-close diff at row j (defined for j at least 1; pandas leaves row
0 NaN and the rolling window below never reaches it under the hypotheses
used). -/
def deltaAt (close : List ℚ) (j : Nat) : ℚ := close.getD j 0 - close.getD (j - 1) 0

/-- Gain series: negative diffs zeroed. -/
def gainAt (close : List ℚ) (j : Nat) : ℚ := max (deltaAt close j) 0

/-- Loss series: positive diffs zeroed, sign flipped. -/
def lossAt (close : List ℚ) (j : Nat) : ℚ := max (-(deltaAt close j)) 0

/-- 14-bar rolling mean of gains ending at row i (valid for i at least 14). -/
def meanGain (close : List ℚ) (i : Nat) : ℚ :=
  ((List.range 14).map (fun t => gainAt close (i - t))).sum / 14

/-- 14-bar rolling mean of losses ending at row i (valid for i at least 14). -/
def meanLoss (close : List ℚ) (i : Nat) : ℚ :=
  ((List.range 14).map (fun t => lossAt close (i - t))).sum / 14

/-- RSI column at row i as the sources compute it. -/
def rsiAt (close : List ℚ) (i : Nat) : ERat :=
  rsiFormula (meanGain close i) (meanLoss close i)

/-! ## Column requirements of the two openbb_app.py indicator functions

A data frame is modelled by its optional OHLCV columns plus the list of
indicator columns added so far; a missing column access raises a KeyError
naming the column, modelled by `Except String`. -/

structure Df where
  nrows : Nat
  close : Option (List ℚ) := none
  high : Option (List ℚ) := none
  low : Option (List ℚ) := none
  volume : Option (List ℚ) := none
  cols : List String := []
deriving Repr, DecidableEq

/-- Indicator columns `calculate_technical_indicators` adds when it
succeeds. -/
def calcTechCols : List String :=
  ["SMA_20", "SMA_50", "SMA_200", "EMA_12", "EMA_26", "EMA_50", "RSI",
   "MACD", "MACD_Signal", "MACD_Histogram",
   "BB_Middle", "BB_Upper", "BB_Lower", "BB_Width", "BB_Percent",
   "Stoch_K", "Stoch_D", "ATR", "Volume_MA", "OBV", "MFI",
   "Resistance", "Support", "Pivot", "R1", "S1", "R2", "S2"]

/-- Control flow of openbb_app.py `calculate_technical_indicators`: an empty
frame is returned unchanged; otherwise the required columns are read in
source order (Close, then Low, then High, then Volume) and a missing one
raises a KeyError naming it, which nothing catches. -/
def calculateTechnicalIndicators (df : Df) : Except String Df :=
  if df.nrows = 0 then .ok df else
  match df.close with
  | none => .error "Close"
  | some _ =>
    match df.low with
    | none => .error "Low"
    | some _ =>
      match df.high with
      | none => .error "High"
      | some _ =>
        match df.volume with
        | none => .error "Volume"
        | some _ => .ok { df with cols := df.cols ++ calcTechCols }

/-- Close-based indicator columns `add_technical_indicators` adds. -/
def addTechCloseCols : List String :=
  ["SMA_20", "SMA_50", "SMA_200", "EMA_12", "EMA_26",
   "MACD", "MACD_Signal", "MACD_Histogram", "RSI",
   "BB_Middle", "BB_Upper", "BB_Lower"]

/-- Volume-based indicator columns `add_technical_indicators` adds only when
a Volume column exists. -/
def addTechVolumeCols : List String := ["Volume_SMA", "Volume_Ratio"]

/-- Control flow of openbb_app.py `add_technical_indicators`: the whole body
sits in a try/except that catches every exception, emits a warning and
returns the frame unchanged. High and Low are never read; Volume is guarded
by an explicit membership test, so its absence silently skips the volume
columns instead of failing. -/
def addTechnicalIndicators (df : Df) : Df :=
  let body : Except String Df :=
    match df.close with
    | none => .error "Close"
    | some _ =>
      let df1 : Df := { df with cols := df.cols ++ addTechCloseCols }
      match df.volume with
      | none => .ok df1
      | some _ => .ok { df1 with cols := df1.cols ++ addTechVolumeCols }
  match body with
  | .ok d => d
  | .error _ => df

/-! ## Concrete instances used by counterexamples and witnesses -/

/-- The fundamentals snapshot of the end-to-end scenario in the spec. -/
def fundC1 : Fundamentals :=
  { sector := some "Technology", trailingPE := some 20, priceToBook := some 5,
    pegRatio := some (4/5), returnOnEquity := some (1/4),
    debtToEquity := some (1/2), profitMargins := some (7/25),
    revenueGrowth := some (3/10), recommendationKey := some "strong_buy",
    targetMeanPrice := some 250, currentPrice := some 200 }

/-- A snapshot carrying only a 1-week performance figure of 20 percent. -/
def fundMom : Fundamentals := { performance_1w := some 20 }

/-- A snapshot whose only metric is a free cash flow of exactly zero. -/
def fundFcf0 : Fundamentals := { freeCashflow := some 0 }

/-- A frame with a Close column but no Volume column. -/
def dfNoVolume : Df :=
  { nrows := 3, close := some [1, 2, 3], high := some [2, 3, 4],
    low := some [0, 1, 2] }

/-- A frame with only a Close column (no High, Low or Volume). -/
def dfCloseOnly : Df := { nrows := 2, close := some [1, 2] }

/-- Fifteen closes alternating gains and losses; at row 14 the 14-bar mean
loss is 1 and the mean gain is 13/14. -/
def closesMixed : List ℚ :=
  [10, 11, 9, 12, 10, 11, 9, 12, 10, 11, 9, 12, 10, 11, 9]

/-- Fifteen strictly increasing closes; at row 14 the 14-bar mean loss is 0
and the mean gain is 1. -/
def closesUp : List ℚ :=
  [0, 1, 2, 3, 4, 5, 6, 7, 8, 9, 10, 11, 12, 13, 14]

/-! ## Helper lemmas: score bounds -/

lemma list_sum_le (l : List ℚ) (hi : ℚ) (h : ∀ x ∈ l, x ≤ hi) :
    l.sum ≤ hi * l.length := by
  induction l with
  | nil => simp
  | cons a t ih =>
    have ha : a ≤ hi := h a (List.mem_cons_self a t)
    have ht : t.sum ≤ hi * t.length := ih fun x hx => h x (List.mem_cons_of_mem a hx)
    simp only [List.sum_cons, List.length_cons]
    push_cast
    linarith

lemma list_le_sum (l : List ℚ) (lo : ℚ) (h : ∀ x ∈ l, lo ≤ x) :
    lo * l.length ≤ l.sum := by
  induction l with
  | nil => simp
  | cons a t ih =>
    have ha : lo ≤ a := h a (List.mem_cons_self a t)
    have ht : lo * t.length ≤ t.sum := ih fun x hx => h x (List.mem_cons_of_mem a hx)
    simp only [List.sum_cons, List.length_cons]
    push_cast
    linarith

lemma scoreOf_bounds (l : List ℚ) (lo hi : ℚ) (hlo : lo ≤ 50) (hhi : 50 ≤ hi)
    (h : ∀ x ∈ l, lo ≤ x ∧ x ≤ hi) : lo ≤ scoreOf l ∧ scoreOf l ≤ hi := by
  by_cases h0 : l = []
  · simp [scoreOf, h0]; exact ⟨hlo, hhi⟩
  · have hlen : 0 < (l.length : ℚ) := by
      have := List.length_pos.mpr h0
      exact_mod_cast this
    have hsum_le : l.sum ≤ hi * l.length := list_sum_le l hi fun x hx => (h x hx).2
    have hle_sum : lo * l.length ≤ l.sum := list_le_sum l lo fun x hx => (h x hx).1
    rw [scoreOf, if_neg h0]
    constructor
    · rw [le_div_iff₀ hlen]; linarith
    · rw [div_le_iff₀ hlen]; linarith

/-! ## Helper lemmas: category point membership -/

lemma pePoints_mem {b : Benchmark} {f : Fundamentals} {x : ℚ}
    (hx : x ∈ pePoints b f) : x = 80 ∨ x = 60 ∨ x = 40 ∨ x = 20 := by
  rw [pePoints.eq_def] at hx
  rcases hv : f.trailingPE with _ | pe <;> simp only [hv] at hx
  · simp at hx
  · split_ifs at hx <;> simp_all

lemma pbPoints_mem {b : Benchmark} {f : Fundamentals} {x : ℚ}
    (hx : x ∈ pbPoints b f) : x = 80 ∨ x = 60 ∨ x = 40 ∨ x = 20 := by
  rw [pbPoints.eq_def] at hx
  rcases hv : f.priceToBook with _ | pb <;> simp only [hv] at hx
  · simp at hx
  · split_ifs at hx <;> simp_all

lemma pegPoints_mem {f : Fundamentals} {x : ℚ}
    (hx : x ∈ pegPoints f) : x = 90 ∨ x = 70 ∨ x = 50 ∨ x = 30 := by
  rw [pegPoints.eq_def] at hx
  rcases hv : f.pegRatio with _ | peg <;> simp only [hv] at hx
  · simp at hx
  · split_ifs at hx <;> simp_all

lemma forwardPePoints_mem {f : Fundamentals} {x : ℚ}
    (hx : x ∈ forwardPePoints f) : x = 70 ∨ x = 60 ∨ x = 40 := by
  rw [forwardPePoints.eq_def] at hx
  rcases h1 : f.forwardPE with _ | fpe <;> rcases h2 : f.trailingPE with _ | pe <;>
    (try simp only [h1, h2] at hx) <;>
    first
    | (split_ifs at hx <;> simp_all)
    | simp at hx

lemma valuationPoints_bounds {b : Benchmark} {f : Fundamentals} {x : ℚ}
    (hx : x ∈ valuationPoints b f) : 0 ≤ x ∧ x ≤ 90 := by
  rw [valuationPoints] at hx
  simp only [List.mem_append] at hx
  rcases hx with ((hx | hx) | hx) | hx
  · rcases pePoints_mem hx with h | h | h | h <;> subst h <;> norm_num
  · rcases pbPoints_mem hx with h | h | h | h <;> subst h <;> norm_num
  · rcases pegPoints_mem hx with h | h | h | h <;> subst h <;> norm_num
  · rcases forwardPePoints_mem hx with h | h | h <;> subst h <;> norm_num

lemma roePoints_mem {b : Benchmark} {f : Fundamentals} {x : ℚ}
    (hx : x ∈ roePoints b f) : x = 90 ∨ x = 70 ∨ x = 50 ∨ x = 30 := by
  rw [roePoints.eq_def] at hx
  rcases hv : f.returnOnEquity with _ | roe <;> simp only [hv] at hx
  · simp at hx
  · split_ifs at hx <;> simp_all

lemma roaPoints_mem {f : Fundamentals} {x : ℚ}
    (hx : x ∈ roaPoints f) : x = 85 ∨ x = 70 ∨ x = 50 ∨ x = 30 := by
  rw [roaPoints.eq_def] at hx
  rcases hv : f.returnOnAssets with _ | roa <;> simp only [hv] at hx
  · simp at hx
  · split_ifs at hx <;> simp_all

lemma dePoints_mem {b : Benchmark} {f : Fundamentals} {x : ℚ}
    (hx : x ∈ dePoints b f) : x = 90 ∨ x = 70 ∨ x = 40 ∨ x = 20 := by
  rw [dePoints.eq_def] at hx
  rcases hv : f.debtToEquity with _ | de <;> simp only [hv] at hx
  · simp at hx
  · split_ifs at hx <;> simp_all

lemma marginPoints_mem {b : Benchmark} {f : Fundamentals} {x : ℚ}
    (hx : x ∈ marginPoints b f) : x = 90 ∨ x = 70 ∨ x = 50 ∨ x = 30 := by
  rw [marginPoints.eq_def] at hx
  rcases hv : f.profitMargins with _ | m <;> simp only [hv] at hx
  · simp at hx
  · split_ifs at hx <;> simp_all

lemma fcfPoints_mem {f : Fundamentals} {x : ℚ}
    (hx : x ∈ fcfPoints f) : x = 70 ∨ x = 20 := by
  rw [fcfPoints.eq_def] at hx
  rcases hv : f.freeCashflow with _ | fcf <;> simp only [hv] at hx
  · simp at hx
  · split_ifs at hx <;> simp_all

lemma healthPoints_bounds {b : Benchmark} {f : Fundamentals} {x : ℚ}
    (hx : x ∈ healthPoints b f) : 0 ≤ x ∧ x ≤ 90 := by
  rw [healthPoints] at hx
  simp only [List.mem_append] at hx
  rcases hx with (((hx | hx) | hx) | hx) | hx
  · rcases roePoints_mem hx with h | h | h | h <;> subst h <;> norm_num
  · rcases roaPoints_mem hx with h | h | h | h <;> subst h <;> norm_num
  · rcases dePoints_mem hx with h | h | h | h <;> subst h <;> norm_num
  · rcases marginPoints_mem hx with h | h | h | h <;> subst h <;> norm_num
  · rcases fcfPoints_mem hx with h | h <;> subst h <;> norm_num

lemma revGrowthPoints_mem {b : Benchmark} {f : Fundamentals} {x : ℚ}
    (hx : x ∈ revGrowthPoints b f) : x = 95 ∨ x = 80 ∨ x = 65 ∨ x = 45 ∨ x = 20 := by
  rw [revGrowthPoints.eq_def] at hx
  rcases hv : f.revenueGrowth with _ | rg <;> simp only [hv] at hx
  · simp at hx
  · split_ifs at hx <;> simp_all

lemma earningsGrowthPoints_mem {f : Fundamentals} {x : ℚ}
    (hx : x ∈ earningsGrowthPoints f) : x = 90 ∨ x = 75 ∨ x = 55 ∨ x = 40 ∨ x = 25 := by
  rw [earningsGrowthPoints.eq_def] at hx
  rcases hv : f.earningsGrowth with _ | eg <;> simp only [hv] at hx
  · simp at hx
  · split_ifs at hx <;> simp_all

lemma grossMarginPoints_mem {f : Fundamentals} {x : ℚ}
    (hx : x ∈ grossMarginPoints f) : x = 85 ∨ x = 70 ∨ x = 50 ∨ x = 30 := by
  rw [grossMarginPoints.eq_def] at hx
  rcases hv : f.grossMargins with _ | gm <;> simp only [hv] at hx
  · simp at hx
  · split_ifs at hx <;> simp_all

lemma growthPoints_bounds {b : Benchmark} {f : Fundamentals} {x : ℚ}
    (hx : x ∈ growthPoints b f) : 0 ≤ x ∧ x ≤ 95 := by
  rw [growthPoints] at hx
  simp only [List.mem_append] at hx
  rcases hx with (hx | hx) | hx
  · rcases revGrowthPoints_mem hx with h | h | h | h | h <;> subst h <;> norm_num
  · rcases earningsGrowthPoints_mem hx with h | h | h | h | h <;> subst h <;> norm_num
  · rcases grossMarginPoints_mem hx with h | h | h | h <;> subst h <;> norm_num

lemma perfPoint_bounds (p w : ℚ) (h0 : 0 ≤ w) (h1 : w ≤ 6/5) :
    0 ≤ perfPoint p w ∧ perfPoint p w ≤ 108 := by
  unfold perfPoint
  split_ifs <;> constructor <;> nlinarith

lemma perfPoints_bounds {f : Fundamentals} {x : ℚ}
    (hx : x ∈ perfPoints f) : 0 ≤ x ∧ x ≤ 108 := by
  unfold perfPoints at hx
  simp only [List.mem_append] at hx
  rcases hx with (hx | hx) | hx
  · rcases hp : f.performance_1w with _ | p <;> rw [hp] at hx <;> simp at hx
    subst hx
    exact perfPoint_bounds p (6/5) (by norm_num) (by norm_num)
  · rcases hp : f.performance_1m with _ | p <;> rw [hp] at hx <;> simp at hx
    subst hx
    exact perfPoint_bounds p 1 (by norm_num) (by norm_num)
  · rcases hp : f.performance_3m with _ | p <;> rw [hp] at hx <;> simp at hx
    subst hx
    exact perfPoint_bounds p (4/5) (by norm_num) (by norm_num)

lemma maPoints_mem {f : Fundamentals} {x : ℚ}
    (hx : x ∈ maPoints f) : x = 85 ∨ x = 70 ∨ x = 55 ∨ x = 30 := by
  rw [maPoints.eq_def] at hx
  rcases h1 : f.fiftyDayAverage with _ | a <;> rcases h2 : f.twoHundredDayAverage with _ | b <;>
    rcases h3 : f.currentPrice with _ | c <;> (try simp only [h1, h2, h3] at hx) <;>
    first
    | (split_ifs at hx <;> simp_all)
    | simp at hx

lemma momentumPoints_bounds {f : Fundamentals} {x : ℚ}
    (hx : x ∈ momentumPoints f) : 0 ≤ x ∧ x ≤ 108 := by
  rw [momentumPoints] at hx
  simp only [List.mem_append] at hx
  rcases hx with hx | hx
  · exact perfPoints_bounds hx
  · rcases maPoints_mem hx with h | h | h | h <;> subst h <;> norm_num

lemma recMap_bounds (s : String) : 5 ≤ recMap s ∧ recMap s ≤ 95 := by
  unfold recMap
  split_ifs <;> norm_num

lemma recPoints_bounds {f : Fundamentals} {x : ℚ}
    (hx : x ∈ recPoints f) : 5 ≤ x ∧ x ≤ 95 := by
  simp only [recPoints] at hx
  split_ifs at hx
  · simp at hx
  · simp only [List.mem_singleton] at hx; subst hx
    exact recMap_bounds _

lemma targetPoints_mem {f : Fundamentals} {x : ℚ}
    (hx : x ∈ targetPoints f) : x = 95 ∨ x = 80 ∨ x = 65 ∨ x = 45 ∨ x = 25 := by
  rw [targetPoints.eq_def] at hx
  rcases h1 : f.targetMeanPrice with _ | t <;> rcases h2 : f.currentPrice with _ | c <;>
    (try simp only [h1, h2] at hx) <;>
    first
    | (split_ifs at hx <;> simp_all)
    | simp at hx

lemma instPoints_mem {f : Fundamentals} {x : ℚ}
    (hx : x ∈ instPoints f) : x = 70 ∨ x = 60 ∨ x = 45 := by
  rw [instPoints.eq_def] at hx
  rcases hv : f.heldPercentInstitutions with _ | p <;> simp only [hv] at hx
  · simp at hx
  · split_ifs at hx <;> simp_all

lemma shortPoints_mem {f : Fundamentals} {x : ℚ}
    (hx : x ∈ shortPoints f) : x = 75 ∨ x = 60 ∨ x = 30 ∨ x = 50 := by
  rw [shortPoints.eq_def] at hx
  rcases hv : f.shortPercentOfFloat with _ | p <;> simp only [hv] at hx
  · simp at hx
  · split_ifs at hx <;> simp_all

lemma sentimentPoints_bounds {f : Fundamentals} {x : ℚ}
    (hx : x ∈ sentimentPoints f) : 0 ≤ x ∧ x ≤ 95 := by
  rw [sentimentPoints] at hx
  simp only [List.mem_append] at hx
  rcases hx with ((hx | hx) | hx) | hx
  · have := recPoints_bounds hx; exact ⟨by linarith [this.1], this.2⟩
  · rcases targetPoints_mem hx with h | h | h | h | h <;> subst h <;> norm_num
  · rcases instPoints_mem hx with h | h | h <;> subst h <;> norm_num
  · rcases shortPoints_mem hx with h | h | h | h <;> subst h <;> norm_num

/-! ## Helper lemmas: category score bounds -/

lemma valuationScore_bounds (f : Fundamentals) :
    0 ≤ valuationScore f ∧ valuationScore f ≤ 90 :=
  scoreOf_bounds _ 0 90 (by norm_num) (by norm_num)
    fun _ hx => valuationPoints_bounds hx

lemma healthScore_bounds (f : Fundamentals) :
    0 ≤ healthScore f ∧ healthScore f ≤ 90 :=
  scoreOf_bounds _ 0 90 (by norm_num) (by norm_num)
    fun _ hx => healthPoints_bounds hx

lemma growthScore_bounds (f : Fundamentals) :
    0 ≤ growthScore f ∧ growthScore f ≤ 95 :=
  scoreOf_bounds _ 0 95 (by norm_num) (by norm_num)
    fun _ hx => growthPoints_bounds hx

lemma momentumScore_bounds (f : Fundamentals) :
    0 ≤ momentumScore f ∧ momentumScore f ≤ 108 :=
  scoreOf_bounds _ 0 108 (by norm_num) (by norm_num)
    fun _ hx => momentumPoints_bounds hx

lemma sentimentScore_bounds (f : Fundamentals) :
    0 ≤ sentimentScore f ∧ sentimentScore f ≤ 95 :=
  scoreOf_bounds _ 0 95 (by norm_num) (by norm_num)
    fun _ hx => sentimentPoints_bounds hx

lemma SECTOR_BENCHMARKS_de_ok_pos (s : String) (b : Benchmark)
    (h : SECTOR_BENCHMARKS s = some b) : 0 < b.debt_equity_ok := by
  rw [SECTOR_BENCHMARKS] at h
  by_cases h0 : s = "Technology"
  · rw [if_pos h0] at h; injection h with h; subst h; norm_num
  · rw [if_neg h0] at h
    by_cases h1 : s = "Software"
    · rw [if_pos h1] at h; injection h with h; subst h; norm_num
    · rw [if_neg h1] at h
      by_cases h2 : s = "Finance"
      · rw [if_pos h2] at h; injection h with h; subst h; norm_num
      · rw [if_neg h2] at h
        by_cases h3 : s = "Consumer Cyclical"
        · rw [if_pos h3] at h; injection h with h; subst h; norm_num
        · rw [if_neg h3] at h
          by_cases h4 : s = "Healthcare"
          · rw [if_pos h4] at h; injection h with h; subst h; norm_num
          · rw [if_neg h4] at h
            by_cases h5 : s = "Energy"
            · rw [if_pos h5] at h; injection h with h; subst h; norm_num
            · rw [if_neg h5] at h
              by_cases h6 : s = "Industrials"
              · rw [if_pos h6] at h; injection h with h; subst h; norm_num
              · rw [if_neg h6] at h
                by_cases h7 : s = "Consumer Defensive"
                · rw [if_pos h7] at h; injection h with h; subst h; norm_num
                · rw [if_neg h7] at h
                  by_cases h8 : s = "Communication Services"
                  · rw [if_pos h8] at h; injection h with h; subst h; norm_num
                  · rw [if_neg h8] at h
                    by_cases h9 : s = "Utilities"
                    · rw [if_pos h9] at h; injection h with h; subst h; norm_num
                    · rw [if_neg h9] at h
                      by_cases h10 : s = "Real Estate"
                      · rw [if_pos h10] at h; injection h with h; subst h; norm_num
                      · rw [if_neg h10] at h
                        by_cases h11 : s = "Basic Materials"
                        · rw [if_pos h11] at h; injection h with h; subst h; norm_num
                        · rw [if_neg h11] at h
                          exact absurd h (by simp)

lemma benchmark_de_ok_pos (f : Fundamentals) : 0 < (benchmarksOf f).debt_equity_ok := by
  rw [benchmarksOf]
  rcases h : SECTOR_BENCHMARKS (sectorOf f) with _ | b
  · norm_num [Option.getD_none, DEFAULT_BENCHMARK]
  · simpa using SECTOR_BENCHMARKS_de_ok_pos _ b h

/-! ## Claim C1 -/

/-- C1 counterexample: on the spec's end-to-end fundamentals the valuation
score is not (80+60+90)/3; the P/B point is 80 (5 is below 0.7 times the
sector average 8), so the score is 250/3, not 230/3. -/
theorem claim_C1_counterexample :
    valuationScore fundC1 = 250/3 ∧ valuationScore fundC1 ≠ (80 + 60 + 90) / 3 := by
  have hpts : valuationPoints (benchmarksOf fundC1) fundC1 = [80, 80, 90] := by
    norm_num [valuationPoints, pePoints, pbPoints, pegPoints, forwardPePoints,
      benchmarksOf, sectorOf, SECTOR_BENCHMARKS, fundC1]
  have h : valuationScore fundC1 = 250/3 := by
    rw [valuationScore, hpts]
    simp only [scoreOf, if_neg (show ¬([80, 80, 90] : List ℚ) = [] by simp)]
    norm_num
  exact ⟨h, by rw [h]; norm_num⟩

/-- C1 amended: on the spec's end-to-end fundamentals the valuation points
are exactly 80 (P/E 20 below pe_good 25), 80 (P/B 5 below 0.7 times pb_avg 8
= 5.6), and 90 (PEG 0.8 below 1), with forward P/E skipped because absent,
so the valuation score is (80+80+90)/3 = 250/3. -/
theorem claim_C1_amended :
    valuationPoints (benchmarksOf fundC1) fundC1 = [80, 80, 90] ∧
    valuationScore fundC1 = (80 + 80 + 90) / 3 := by
  have hpts : valuationPoints (benchmarksOf fundC1) fundC1 = [80, 80, 90] := by
    norm_num [valuationPoints, pePoints, pbPoints, pegPoints, forwardPePoints,
      benchmarksOf, sectorOf, SECTOR_BENCHMARKS, fundC1]
  refine ⟨hpts, ?_⟩
  rw [valuationScore, hpts]
  simp only [scoreOf, if_neg (show ¬([80, 80, 90] : List ℚ) = [] by simp)]
  norm_num

/-! ## Claim C2 -/

/-- C2: a snapshot with only a 1-week performance of 20 gets a momentum
category score of 90 times 1.2 = 108, outside the [0,100] range promised by
the method's own docstring (returns 0-100) and the AnalysisResult comment
(0-100 percentile). -/
theorem claim_C2_code_bug_eval :
    momentumScore fundMom = 108 ∧ ¬ momentumScore fundMom ≤ 100 := by
  have h : momentumScore fundMom = 108 := by
    norm_num [momentumScore, momentumPoints, perfPoints, perfPoint, maPoints,
      scoreOf, fundMom]
  exact ⟨h, by rw [h]; norm_num⟩

/-- Bounds actually satisfied by the analyzer: valuation, financial health,
growth and sentiment scores lie in [0,100]; the momentum score only in
[0,108] (the 1.2 weight on the 1-week performance point can reach 108); the
composite overall score still lies in [0,100]. -/
theorem analyzer_score_bounds (f : Fundamentals) :
    (0 ≤ valuationScore f ∧ valuationScore f ≤ 100) ∧
    (0 ≤ healthScore f ∧ healthScore f ≤ 100) ∧
    (0 ≤ growthScore f ∧ growthScore f ≤ 100) ∧
    (0 ≤ momentumScore f ∧ momentumScore f ≤ 108) ∧
    (0 ≤ sentimentScore f ∧ sentimentScore f ≤ 100) ∧
    (0 ≤ overallScore f ∧ overallScore f ≤ 100) := by
  obtain ⟨v0, v1⟩ := valuationScore_bounds f
  obtain ⟨h0, h1⟩ := healthScore_bounds f
  obtain ⟨g0, g1⟩ := growthScore_bounds f
  obtain ⟨m0, m1⟩ := momentumScore_bounds f
  obtain ⟨s0, s1⟩ := sentimentScore_bounds f
  refine ⟨⟨v0, by linarith⟩, ⟨h0, by linarith⟩, ⟨g0, by linarith⟩,
    ⟨m0, m1⟩, ⟨s0, by linarith⟩, ?_, ?_⟩ <;>
    rw [overallScore] <;> nlinarith

/-! ## Claim C3 -/

/-- C3 counterexample: a snapshot whose free cash flow is present with value
0 contributes no signal point (the Python truthiness test skips zero), so the
financial-health category stays at the neutral 50 — contradicting the claim
that a present zero metric is scored. -/
theorem claim_C3_counterexample :
    fcfPoints fundFcf0 = [] ∧ healthScore fundFcf0 = 50 := by
  constructor
  · norm_num [fcfPoints, fundFcf0]
  · norm_num [healthScore, healthPoints, roePoints, roaPoints, dePoints,
      marginPoints, fcfPoints, scoreOf, fundFcf0]

/-- C3 amended: a metric absent from the snapshot contributes no point; a
metric present with value 0 also contributes no point for every metric the
source guards with Python truthiness (trailing P/E, P/B, PEG, ROE, ROA,
margins, free cash flow, revenue and earnings growth, gross margins,
institutional ownership, short interest); only the metrics guarded with an
explicit None test are scored at zero: debt/equity (landing in the best
bucket, point 90) and the performance figures (a zero 1-week performance
scores 40 times 1.2 = 48). -/
theorem claim_C3_amended (f : Fundamentals) (b : Benchmark) :
    (pePoints b { f with trailingPE := none } = [] ∧
     pbPoints b { f with priceToBook := none } = [] ∧
     pegPoints { f with pegRatio := none } = [] ∧
     forwardPePoints { f with forwardPE := none } = [] ∧
     roePoints b { f with returnOnEquity := none } = [] ∧
     roaPoints { f with returnOnAssets := none } = [] ∧
     dePoints b { f with debtToEquity := none } = [] ∧
     marginPoints b { f with profitMargins := none } = [] ∧
     fcfPoints { f with freeCashflow := none } = [] ∧
     revGrowthPoints b { f with revenueGrowth := none } = [] ∧
     earningsGrowthPoints { f with earningsGrowth := none } = [] ∧
     grossMarginPoints { f with grossMargins := none } = [] ∧
     perfPoints
       { f with performance_1w := none, performance_1m := none,
                performance_3m := none } = [] ∧
     maPoints { f with fiftyDayAverage := none } = [] ∧
     recPoints { f with recommendationKey := none } = [] ∧
     targetPoints { f with targetMeanPrice := none } = [] ∧
     instPoints { f with heldPercentInstitutions := none } = [] ∧
     shortPoints { f with shortPercentOfFloat := none } = []) ∧
    (pePoints b { f with trailingPE := some 0 } = [] ∧
     pbPoints b { f with priceToBook := some 0 } = [] ∧
     pegPoints { f with pegRatio := some 0 } = [] ∧
     roePoints b { f with returnOnEquity := some 0 } = [] ∧
     roaPoints { f with returnOnAssets := some 0 } = [] ∧
     marginPoints b { f with profitMargins := some 0 } = [] ∧
     fcfPoints { f with freeCashflow := some 0 } = [] ∧
     revGrowthPoints b { f with revenueGrowth := some 0 } = [] ∧
     earningsGrowthPoints { f with earningsGrowth := some 0 } = [] ∧
     grossMarginPoints { f with grossMargins := some 0 } = [] ∧
     instPoints { f with heldPercentInstitutions := some 0 } = [] ∧
     shortPoints { f with shortPercentOfFloat := some 0 } = []) ∧
    (dePoints (benchmarksOf f) { f with debtToEquity := some 0 } = [90] ∧
     perfPoints
       { f with performance_1w := some 0, performance_1m := none,
                performance_3m := none } = [48]) := by
  refine ⟨⟨rfl, rfl, rfl, rfl, rfl, rfl, rfl, rfl, rfl, rfl, rfl, rfl, rfl,
    rfl, ?_, rfl, rfl, rfl⟩,
    ⟨?_, ?_, ?_, ?_, ?_, ?_, ?_, ?_, ?_, ?_, ?_, ?_⟩, ?_, ?_⟩
  · norm_num [recPoints]
  · norm_num [pePoints]
  · norm_num [pbPoints]
  · norm_num [pegPoints]
  · norm_num [roePoints]
  · norm_num [roaPoints]
  · norm_num [marginPoints]
  · norm_num [fcfPoints]
  · norm_num [revGrowthPoints]
  · norm_num [earningsGrowthPoints]
  · norm_num [grossMarginPoints]
  · norm_num [instPoints]
  · norm_num [shortPoints]
  · have hpos := benchmark_de_ok_pos f
    simp only [dePoints]
    split_ifs with h1 h2 h3 <;> first | rfl | (exfalso; apply h1; linarith)
  · norm_num [perfPoints, perfPoint]

/-! ## Helper lemmas: indicators -/

lemma obvOpenbb_zero (close volume : List ℚ) : obvOpenbb close volume 0 = 0 := by
  rw [obvOpenbb, List.range_succ]
  simp [obvOpenbbTerm]

lemma obvOpenbb_succ (close volume : List ℚ) (i : Nat) :
    obvOpenbb close volume (i + 1) =
      obvOpenbb close volume i + obvOpenbbTerm close volume (i + 1) := by
  rw [obvOpenbb, obvOpenbb, List.range_succ, List.map_append, List.sum_append]
  simp

lemma ewmNum_closed (a : ℚ) (xs : List ℚ) (i : Nat) :
    ewmNum a xs i =
      (Finset.range (i + 1)).sum fun k => (1 - a) ^ (i - k) * xs.getD k 0 := by
  induction i with
  | zero => simp [ewmNum]
  | succ i ih =>
    have hcong : ∀ k ∈ Finset.range (i + 1),
        (1 - a) * ((1 - a) ^ (i - k) * xs.getD k 0) =
          (1 - a) ^ (i + 1 - k) * xs.getD k 0 := by
      intro k hk
      have hk' : k ≤ i := Nat.lt_succ_iff.mp (Finset.mem_range.mp hk)
      rw [Nat.succ_sub hk', pow_succ]
      ring
    rw [ewmNum, ih, Finset.sum_range_succ _ (i + 1), Finset.mul_sum,
      Finset.sum_congr rfl hcong]
    simp

lemma ewmDen_closed (a : ℚ) (i : Nat) :
    ewmDen a i = (Finset.range (i + 1)).sum fun k => (1 - a) ^ (i - k) := by
  induction i with
  | zero => simp [ewmDen]
  | succ i ih =>
    have hcong : ∀ k ∈ Finset.range (i + 1),
        (1 - a) * (1 - a) ^ (i - k) = (1 - a) ^ (i + 1 - k) := by
      intro k hk
      have hk' : k ≤ i := Nat.lt_succ_iff.mp (Finset.mem_range.mp hk)
      rw [Nat.succ_sub hk', pow_succ]
      ring
    rw [ewmDen, ih, Finset.sum_range_succ _ (i + 1), Finset.mul_sum,
      Finset.sum_congr rfl hcong]
    simp

lemma meanGain_nonneg (close : List ℚ) (i : Nat) : 0 ≤ meanGain close i := by
  unfold meanGain
  apply div_nonneg _ (by norm_num)
  apply List.sum_nonneg
  intro x hx
  simp only [List.mem_map] at hx
  obtain ⟨t, _, rfl⟩ := hx
  exact le_max_right _ _

/-! ## Claim C4 -/

/-- C4 counterexample: on the one-bar series with volume 5 the OBV of
openbb_app.py calculate_technical_indicators is 0 at bar 0, not the first
bar's volume — the NaN first diff zeroes the whole first term. -/
theorem claim_C4_counterexample :
    obvOpenbb [10] [5] 0 = 0 ∧ ¬ obvOpenbb [10] [5] 0 = ([5] : List ℚ).getD 0 0 := by
  have h : obvOpenbb [10] [5] 0 = 0 := obvOpenbb_zero [10] [5]
  refine ⟨h, ?_⟩
  rw [h]
  norm_num

/-- C4 amended: the OBV of enhanced_finance_data.py _calculate_obv is seeded
with the first bar's volume and follows the signed increments exactly as
claimed; the OBV of openbb_app.py calculate_technical_indicators follows the
same signed increments but starts at 0 on bar 0 instead of the first bar's
volume. -/
theorem claim_C4_amended (close volume : List ℚ) (i : Nat) :
    obvEnhanced close volume 0 = volume.getD 0 0 ∧
    obvEnhanced close volume (i + 1) =
      (if close.getD (i + 1) 0 > close.getD i 0 then
        obvEnhanced close volume i + volume.getD (i + 1) 0
      else if close.getD (i + 1) 0 < close.getD i 0 then
        obvEnhanced close volume i - volume.getD (i + 1) 0
      else obvEnhanced close volume i) ∧
    obvOpenbb close volume 0 = 0 ∧
    obvOpenbb close volume (i + 1) =
      (if close.getD (i + 1) 0 > close.getD i 0 then
        obvOpenbb close volume i + volume.getD (i + 1) 0
      else if close.getD (i + 1) 0 < close.getD i 0 then
        obvOpenbb close volume i - volume.getD (i + 1) 0
      else obvOpenbb close volume i) := by
  refine ⟨rfl, rfl, obvOpenbb_zero close volume, ?_⟩
  rw [obvOpenbb_succ]
  have hterm : obvOpenbbTerm close volume (i + 1) =
      volume.getD (i + 1) 0 * pySign (close.getD (i + 1) 0 - close.getD i 0) := by
    rw [obvOpenbbTerm]
    simp
  rw [hterm, pySign]
  split_ifs <;> first | ring1 | linarith

/-! ## Claim C5 -/

/-- C5 counterexample: on a two-bar series the pivot of openbb_app.py
calculate_technical_indicators at bar 1 is built from bar 1's own
high/low/close (giving 12), not from bar 0's (which would give 6). -/
theorem claim_C5_counterexample :
    pivotOb [10, 20] [2, 4] [6, 12] 1 = 12 ∧
    pivotSpec 10 2 6 = 6 ∧
    ¬ pivotOb [10, 20] [2, 4] [6, 12] 1 = pivotSpec 10 2 6 := by
  refine ⟨?_, ?_, ?_⟩ <;> norm_num [pivotOb, pivotSpec]

/-- C5 amended: enhanced_finance_data.py _calculate_pivot_points computes all
seven levels from the previous bar's high/low/close with exactly the claimed
formulas; openbb_app.py calculate_technical_indicators instead computes
Pivot, R1, R2, S1, S2 from the current bar's high/low/close (and defines no
R3/S3). -/
theorem claim_C5_amended (high low close : List ℚ) (i : Nat) :
    pivotEnh high low close (i + 1) =
      some (pivotSpec (high.getD i 0) (low.getD i 0) (close.getD i 0)) ∧
    r1Enh high low close (i + 1) =
      some (r1Spec (high.getD i 0) (low.getD i 0) (close.getD i 0)) ∧
    r2Enh high low close (i + 1) =
      some (r2Spec (high.getD i 0) (low.getD i 0) (close.getD i 0)) ∧
    r3Enh high low close (i + 1) =
      some (r3Spec (high.getD i 0) (low.getD i 0) (close.getD i 0)) ∧
    s1Enh high low close (i + 1) =
      some (s1Spec (high.getD i 0) (low.getD i 0) (close.getD i 0)) ∧
    s2Enh high low close (i + 1) =
      some (s2Spec (high.getD i 0) (low.getD i 0) (close.getD i 0)) ∧
    s3Enh high low close (i + 1) =
      some (s3Spec (high.getD i 0) (low.getD i 0) (close.getD i 0)) ∧
    pivotOb high low close i =
      pivotSpec (high.getD i 0) (low.getD i 0) (close.getD i 0) ∧
    r1Ob high low close i =
      r1Spec (high.getD i 0) (low.getD i 0) (close.getD i 0) ∧
    r2Ob high low close i =
      r2Spec (high.getD i 0) (low.getD i 0) (close.getD i 0) ∧
    s1Ob high low close i =
      s1Spec (high.getD i 0) (low.getD i 0) (close.getD i 0) ∧
    s2Ob high low close i =
      s2Spec (high.getD i 0) (low.getD i 0) (close.getD i 0) := by
  refine ⟨rfl, rfl, rfl, rfl, rfl, rfl, rfl, rfl, rfl, rfl, rfl, rfl⟩

/-! ## Claim C6 -/

/-- C6 counterexample: with closes 0, 1 and span 12 the adjust=False EMA of
openbb_app.py calculate_technical_indicators at bar 1 is 2/13, while the
default-adjust exponentially-weighted mean the claim asserts is 13/24. -/
theorem claim_C6_counterexample :
    emaCalcTech 12 [0, 1] 1 = 2/13 ∧ emaEnhanced 12 [0, 1] 1 = 13/24 ∧
    ¬ emaCalcTech 12 [0, 1] 1 = emaEnhanced 12 [0, 1] 1 := by
  have h1 : emaCalcTech 12 [0, 1] 1 = 2/13 := by
    norm_num [emaCalcTech, ewmRec]
  have h2 : emaEnhanced 12 [0, 1] 1 = 13/24 := by
    norm_num [emaEnhanced, ewmAdj, ewmNum, ewmDen]
  refine ⟨h1, h2, ?_⟩
  rw [h1, h2]
  norm_num

/-- C6 amended: the span-n EMAs of enhanced_finance_data.py and of
openbb_app.py add_technical_indicators use the pandas default start-up, the
exponentially-weighted mean with weight (1-a)^(i-k) on close k and
a = 2/(n+1); but openbb_app.py calculate_technical_indicators passes
adjust=False, so its EMA is the recursion seeded with the first close. -/
theorem claim_C6_amended (n : ℕ) (xs : List ℚ) (i : Nat) :
    emaEnhanced n xs i =
      ((Finset.range (i + 1)).sum fun k => (1 - 2/((n : ℚ) + 1)) ^ (i - k) * xs.getD k 0) /
      ((Finset.range (i + 1)).sum fun k => (1 - 2/((n : ℚ) + 1)) ^ (i - k)) ∧
    emaAddTech n xs i = emaEnhanced n xs i ∧
    emaCalcTech n xs 0 = xs.getD 0 0 ∧
    emaCalcTech n xs (i + 1) =
      (1 - 2/((n : ℚ) + 1)) * emaCalcTech n xs i +
        (2/((n : ℚ) + 1)) * xs.getD (i + 1) 0 := by
  refine ⟨?_, rfl, rfl, rfl⟩
  rw [emaEnhanced, ewmAdj, ewmNum_closed, ewmDen_closed]

/-! ## Claim C7 -/

/-- C7 counterexample: invoking add_technical_indicators on a frame with
Close, High and Low but no Volume does not fail at all — the Volume branch
is guarded by a membership test, so the call succeeds and returns the frame
with only the Close-based indicator columns, no volume columns and no error
surfaced to the caller. -/
theorem claim_C7_counterexample :
    addTechnicalIndicators dfNoVolume = { dfNoVolume with cols := addTechCloseCols } ∧
    dfNoVolume.volume = none ∧
    ¬ "Volume_SMA" ∈ (addTechnicalIndicators dfNoVolume).cols := by
  refine ⟨rfl, rfl, ?_⟩
  simp [addTechnicalIndicators, dfNoVolume, addTechCloseCols]

/-- C7 amended: calculate_technical_indicators does fail with an uncaught
KeyError naming the first missing of Low, High, Volume (read in that order,
after Close); add_technical_indicators instead never requires High or Low,
silently skips the volume columns when Volume is absent, and catches the
error from a missing Close, returning the input unchanged. -/
theorem claim_C7_amended (df : Df) (h : 0 < df.nrows) :
    (df.close ≠ none → df.low = none →
      calculateTechnicalIndicators df = .error "Low") ∧
    (df.close ≠ none → df.low ≠ none → df.high = none →
      calculateTechnicalIndicators df = .error "High") ∧
    (df.close ≠ none → df.low ≠ none → df.high ≠ none → df.volume = none →
      calculateTechnicalIndicators df = .error "Volume") ∧
    (df.close ≠ none → df.volume = none →
      addTechnicalIndicators df = { df with cols := df.cols ++ addTechCloseCols }) ∧
    (df.close = none → addTechnicalIndicators df = df) := by
  have hn : ¬ df.nrows = 0 := h.ne'
  refine ⟨?_, ?_, ?_, ?_, ?_⟩
  · intro hc hl
    rcases hcc : df.close with _ | c
    · exact absurd hcc hc
    · simp [calculateTechnicalIndicators, hn, hcc, hl]
  · intro hc hl hh
    rcases hcc : df.close with _ | c
    · exact absurd hcc hc
    · rcases hll : df.low with _ | l
      · exact absurd hll hl
      · simp [calculateTechnicalIndicators, hn, hcc, hll, hh]
  · intro hc hl hh hv
    rcases hcc : df.close with _ | c
    · exact absurd hcc hc
    · rcases hll : df.low with _ | l
      · exact absurd hll hl
      · rcases hhh : df.high with _ | hi
        · exact absurd hhh hh
        · simp [calculateTechnicalIndicators, hn, hcc, hll, hhh, hv]
  · intro hc hv
    rcases hcc : df.close with _ | c
    · exact absurd hcc hc
    · simp [addTechnicalIndicators, hcc, hv]
  · intro hc
    simp [addTechnicalIndicators, hc]

/-- C7 witness: on the frame holding only a Close column the
calculate_technical_indicators call surfaces the error naming Low, and the
add_technical_indicators call succeeds, silently adding only the Close-based
columns. -/
theorem claim_C7_amended_witness :
    calculateTechnicalIndicators dfCloseOnly = .error "Low" ∧
    addTechnicalIndicators dfCloseOnly =
      { dfCloseOnly with cols := addTechCloseCols } := by
  have h := claim_C7_amended dfCloseOnly (by norm_num [dfCloseOnly])
  refine ⟨h.1 (by simp [dfCloseOnly]) (by simp [dfCloseOnly]), ?_⟩
  have h4 := h.2.2.2.1 (by simp [dfCloseOnly]) (by simp [dfCloseOnly])
  simpa [dfCloseOnly] using h4

/-! ## Claim C8 -/

/-- C8: whenever the 14-bar mean loss is strictly positive the RSI is a
finite value in [0,100]; when the mean loss is 0 and the mean gain positive,
the division by zero propagates an infinite relative strength and the RSI
evaluates to exactly 100. -/
theorem claim_C8_rsi (close : List ℚ) (i : Nat) (h14 : 14 ≤ i)
    (hlen : i < close.length) :
    (0 < meanLoss close i →
      ∃ q, rsiAt close i = ERat.fin q ∧ 0 ≤ q ∧ q ≤ 100) ∧
    (meanLoss close i = 0 → 0 < meanGain close i →
      rsiAt close i = ERat.fin 100) := by
  have hg : 0 ≤ meanGain close i := meanGain_nonneg close i
  constructor
  · intro hl
    have hr : 0 ≤ meanGain close i / meanLoss close i := div_nonneg hg hl.le
    have h1r : 0 < 1 + meanGain close i / meanLoss close i := by linarith
    refine ⟨100 - 100 / (1 + meanGain close i / meanLoss close i), ?_, ?_, ?_⟩
    · rw [rsiAt, rsiFormula]
      rw [show ERat.div (.fin (meanGain close i)) (.fin (meanLoss close i)) =
          .fin (meanGain close i / meanLoss close i) by simp [ERat.div, hl.ne']]
      rw [show ERat.add (.fin 1) (.fin (meanGain close i / meanLoss close i)) =
          .fin (1 + meanGain close i / meanLoss close i) from rfl]
      rw [show ERat.div (.fin 100)
            (.fin (1 + meanGain close i / meanLoss close i)) =
          .fin (100 / (1 + meanGain close i / meanLoss close i)) by
        simp [ERat.div, h1r.ne']]
      rfl
    · have hdiv_le : 100 / (1 + meanGain close i / meanLoss close i) ≤ 100 := by
        rw [div_le_iff₀ h1r]; nlinarith
      linarith
    · have hdiv_pos : 0 < 100 / (1 + meanGain close i / meanLoss close i) := by
        positivity
      linarith
  · intro hl0 hg0
    rw [rsiAt, rsiFormula, hl0]
    rw [show ERat.div (.fin (meanGain close i)) (.fin 0) = .inf by
      simp [ERat.div, hg0]]
    rw [show ERat.add (.fin 1) .inf = .inf from rfl]
    rw [show ERat.div (.fin 100) .inf = .fin 0 from rfl]
    rw [show ERat.sub (.fin 100) (.fin 0) = .fin 100 by simp [ERat.sub]]

/-- C8 witness: on the alternating series the mean loss at row 14 is 1, so
the RSI is finite and within bounds; on the strictly increasing series the
mean loss is 0 and the mean gain 1, so the RSI is exactly 100. -/
theorem claim_C8_rsi_witness :
    (∃ q, rsiAt closesMixed 14 = ERat.fin q ∧ 0 ≤ q ∧ q ≤ 100) ∧
    rsiAt closesUp 14 = ERat.fin 100 := by
  constructor
  · refine (claim_C8_rsi closesMixed 14 (by norm_num)
      (by simp [closesMixed])).1 ?_
    norm_num [meanLoss, lossAt, deltaAt, closesMixed, List.range_succ]
  · refine (claim_C8_rsi closesUp 14 (by norm_num)
      (by simp [closesUp])).2 ?_ ?_
    · norm_num [meanLoss, lossAt, deltaAt, closesUp, List.range_succ]
    · norm_num [meanGain, gainAt, deltaAt, closesUp, List.range_succ]

/-! ## Claim C9 -/

/-- C9: the recommendation thresholds are inclusive at the lower bound:
Strong Buy iff the score is at least 75, Buy iff in [60,75), Hold iff in
[40,60), Sell iff in [25,40), Strong Sell iff below 25. -/
theorem claim_C9_thresholds (s : ℚ) :
    (getRecommendation s = .strongBuy ↔ 75 ≤ s) ∧
    (getRecommendation s = .buy ↔ 60 ≤ s ∧ s < 75) ∧
    (getRecommendation s = .hold ↔ 40 ≤ s ∧ s < 60) ∧
    (getRecommendation s = .sell ↔ 25 ≤ s ∧ s < 40) ∧
    (getRecommendation s = .strongSell ↔ s < 25) := by
  unfold getRecommendation
  split_ifs with h1 h2 h3 h4 <;>
    refine ⟨?_, ?_, ?_, ?_, ?_⟩ <;> simp_all <;>
    first
    | linarith
    | (constructor <;> intro <;> linarith)
    | (intro <;> linarith)

/-! ## Claim C10 -/

/-- C10: a fundamentals mapping with a sector and no scored metrics gets all
five category scores equal to 50 and an overall score of exactly 50 (the
weights sum to 1). -/
theorem claim_C10_neutral (s : String) :
    valuationScore { sector := some s } = 50 ∧
    healthScore { sector := some s } = 50 ∧
    growthScore { sector := some s } = 50 ∧
    momentumScore { sector := some s } = 50 ∧
    sentimentScore { sector := some s } = 50 ∧
    overallScore { sector := some s } = 50 := by
  have hv : valuationScore { sector := some s } = 50 := rfl
  have hh : healthScore { sector := some s } = 50 := rfl
  have hg : growthScore { sector := some s } = 50 := rfl
  have hm : momentumScore { sector := some s } = 50 := rfl
  have hs : sentimentScore { sector := some s } = 50 := rfl
  refine ⟨hv, hh, hg, hm, hs, ?_⟩
  rw [overallScore, hv, hh, hg, hm, hs]
  norm_num

end TradingTerminal
